import Mathlib

set_option maxRecDepth 20000

/-!
Verification development for the DemoMirrorTest heart-health chatbot.

The Python sources are shallowly embedded: pure functions become Lean
functions over `String`, `List` and `ℚ` (cosine-similarity scores are
modelled as rationals); the sentence-embedding encoder and the
cosine-similarity primitive are black boxes, modelled as parameters
`encode : String → E` and `cos : E → E → ℚ` over an abstract embedding
type `E`, exactly as the spec treats them.  Fallible dynamic-typing
behaviour is modelled with `Except`.
-/

namespace DemoMirror

/-! ## Python string primitives -/

/-- Model of Python `str.lower()` (per-character lowering; ASCII suffices
for all inputs appearing in the repository). -/
def pylower (s : String) : String := String.mk (s.data.map Char.toLower)

/-- Auxiliary worker for `pysplit`: accumulates the current word (reversed)
while scanning the character list. -/
def splitWsAux : List Char → List Char → List String
  | [], acc => if acc.isEmpty then [] else [String.mk acc.reverse]
  | c :: rest, acc =>
      if c.isWhitespace then
        if acc.isEmpty then splitWsAux rest []
        else String.mk acc.reverse :: splitWsAux rest []
      else splitWsAux rest (c :: acc)

/-- Model of Python `str.split()` with no argument: split on runs of
whitespace, discarding empty pieces. -/
def pysplit (s : String) : List String := splitWsAux s.data []

/-- Model of Python `str.strip()`: remove leading and trailing whitespace. -/
def pystrip (s : String) : String :=
  String.mk (((s.data.dropWhile Char.isWhitespace).reverse.dropWhile Char.isWhitespace).reverse)

/-- Auxiliary for `pyfind`: index of the first position where `pat` is a
prefix of the remaining character list. -/
def findSubAux (pat : List Char) : List Char → Option Nat
  | [] => if pat.isEmpty then some 0 else none
  | c :: t => if pat.isPrefixOf (c :: t) then some 0 else (findSubAux pat t).map (· + 1)

/-- Model of Python `str.find(sub)`: `some i` is the first index at which
`pat` occurs in `s`; `none` models the return value `-1`. -/
def pyfind (s pat : String) : Option Nat := findSubAux pat.data s.data

/-- Model of Python `sep.join(parts)`. -/
def pyjoin (sep : String) : List String → String
  | [] => ""
  | [x] => x
  | x :: y :: t => x ++ sep ++ pyjoin sep (y :: t)

/-- Model of Python `max(scores)` guarded by `if scores else 0`
(`max(l) if l else 0`). -/
def maxOr0 : List ℚ → ℚ
  | [] => 0
  | x :: t => t.foldl max x

/-! ## Data model (src/chatbot/response_generation.py and friends)

A knowledge-base record, as built from the CSV in `maxFromEachColumn.py`
lines 42-52 (the `src/chatbot` package consumes the same shape through its
`database` list): trigger word, synonym and keyword lists, and the four
per-intent answer columns. -/

structure Record where
  trigger_word : String
  synonyms : List String
  keywords : List String
  What : String
  Why : String
  How : String
  Symptoms : String
deriving DecidableEq

/-- Record variant used by `Logic1_OnlyCSV.py` (lines 33-40) and
`app3Japanese.py` (lines 36-44): a single `response` column. -/
structure SimpleRecord where
  trigger_word : String
  synonyms : List String
  keywords : List String
  response : String
deriving DecidableEq

/-- Per-record embeddings (`db_embeddings` entries), 1:1 with records;
`E` is the abstract embedding-vector type. -/
structure RecEmb (E : Type) where
  trigger_embedding : E
  synonyms_embeddings : List E
  keywords_embeddings : List E

/-- Python dict lookup `record[column]` / `record.get(column)` for the four
intent columns; unknown keys give `""` (modelling `.get(name, "")`, and the
loop in `match_columns` only ever looks up these four keys). -/
def Record.getCol (r : Record) (c : String) : String :=
  if c = "What" then r.What
  else if c = "Why" then r.Why
  else if c = "How" then r.How
  else if c = "Symptoms" then r.Symptoms
  else ""

/-! ## Context Matcher (src/chatbot/response_generation.py, find_best_context) -/

/-- Pass-1 test of `match_generator` (response_generation.py lines 20-28):
the lower-cased whitespace tokens of the record's trigger word intersect
the query's tokens. -/
def lexCommon (query_words : List String) (r : Record) : Bool :=
  (pysplit (pylower r.trigger_word)).any (fun w => query_words.any (fun q => q = w))

/-- The records collected by Pass 1 (`matches = list(match_generator())`),
in knowledge-base index order. -/
def pass1Matches {E : Type} (db : List (Record × RecEmb E)) (query : String) :
    List Record :=
  let query_words := pysplit (pylower (pystrip query))
  (db.filter (fun e => lexCommon query_words e.1)).map (·.1)

/-- The three component scores of one record against the query embedding
(response_generation.py lines 38-51): trigger similarity, max synonym
similarity (0 if none), max keyword similarity (0 if none). -/
def componentScores {E : Type} (cos : E → E → ℚ) (qe : E) (emb : RecEmb E) :
    ℚ × ℚ × ℚ :=
  let trigger_score := cos qe emb.trigger_embedding
  let synonym_scores := emb.synonyms_embeddings.map (fun e => cos qe e)
  let keyword_scores := emb.keywords_embeddings.map (fun e => cos qe e)
  (trigger_score, maxOr0 synonym_scores, maxOr0 keyword_scores)

/-- `trigger_score >= 0.65 or max_synonym_score >= 0.65 or max_keyword_score >= 0.65`. -/
def isStrongC (c : ℚ × ℚ × ℚ) : Bool :=
  decide (c.1 ≥ 65/100 ∨ c.2.1 ≥ 65/100 ∨ c.2.2 ≥ 65/100)

/-- `trigger_score < 0.65 and max_synonym_score < 0.65 and max_keyword_score < 0.65`. -/
def isWeakC (c : ℚ × ℚ × ℚ) : Bool :=
  decide (c.1 < 65/100 ∧ c.2.1 < 65/100 ∧ c.2.2 < 65/100)

/-- `max(trigger_score, max_synonym_score, max_keyword_score)`. -/
def maxComp (c : ℚ × ℚ × ℚ) : ℚ := max c.1 (max c.2.1 c.2.2)

/-- `avg_score = (trigger_score + max_synonym_score + max_keyword_score) / 3`. -/
def avgComp (c : ℚ × ℚ × ℚ) : ℚ := (c.1 + c.2.1 + c.2.2) / 3

/-- The four mutable Pass-2 locals of response_generation.py lines 11-16. -/
structure Pass2State where
  best_match_score : ℚ
  best_max_match_score : ℚ
  best_match_response : List Record
  best_max_match_response : List Record
deriving DecidableEq

/-- One iteration of the Pass-2 `for` loop (response_generation.py lines
37-85): the strong branch overwrites `best_max_match_score` and appends the
record; the average branch (guarded by all components `< 0.65`) updates the
running best average and appends the record. -/
def pass2Step {E : Type} (cos : E → E → ℚ) (qe : E) (s : Pass2State)
    (e : Record × RecEmb E) : Pass2State :=
  let c := componentScores cos qe e.2
  let s1 := if isStrongC c then
      { s with best_max_match_score := maxComp c,
               best_max_match_response := s.best_max_match_response ++ [e.1] }
    else s
  if avgComp c > s.best_match_score ∧ isWeakC c then
    { s1 with best_match_score := avgComp c,
              best_match_response := s1.best_match_response ++ [e.1] }
  else s1

/-- `find_best_context(query, threshold)` of src/chatbot/response_generation.py
(lines 6-107).  The parallel Python lists `database` / `db_embeddings` are
modelled as one zipped list (they are built 1:1 at startup).  `none` models
`return None`. -/
def find_best_context {E : Type} (cos : E → E → ℚ) (encode : String → E)
    (db : List (Record × RecEmb E)) (query : String) (threshold : ℚ) :
    Option (List Record) :=
  let query_embedding := encode (pylower query)
  let lexmatches := pass1Matches db query
  if lexmatches ≠ [] then some lexmatches
  else
    let s := db.foldl (pass2Step cos query_embedding) ⟨0, 0, [], []⟩
    if s.best_match_score ≥ threshold ∧ s.best_max_match_score < s.best_match_score then
      some s.best_match_response
    else if s.best_max_match_score > s.best_match_score then
      some s.best_max_match_response
    else none

/-! ## Intent Router (src/chatbot/response_generation.py, match_columns)

`match_columns` imports `correct_spelling` from the `chatbot.helpers`
module and `column_embeddings` / `column_names` from `chatbot.embeddings`;
neither module is under src/.  The spell checker is a black-box
text-to-text normalizer (spec §1, §6), passed as a parameter `nm`; the
column-name embeddings are passed as the parameter `column_embeddings`. -/

/-- The ordered intent table of response_generation.py lines 114-132
(Python 3.7+ dicts iterate in insertion order: What, Symptoms, Why, How). -/
def intent_words : List (String × List String) :=
  [("What",
    ["What", "Define", "Identify", "Describe", "Clarify", "Specify", "Detail",
     "Outline", "State", "Explain", "Determine", "Depict",
     "Summarize", "Designate", "Distinguish"]),
   ("Symptoms",
    ["Symptoms", "Signs", "Indications", "Manifestations", "Warning", "Clues",
     "Evidence", "Redflags", "Markers", "Presentations",
     "Outcomes", "Patterns", "Phenomena", "Traits", "Occurrences"]),
   ("Why",
    ["Why", "Causes", "Reason", "Purpose", "Explain", "Justification",
     "Origin", "Motive", "Trigger", "Rationale", "Grounds", "Basis",
     "Excuse", "Source", "Factor"]),
   ("How",
    ["How", "Method", "Means", "Procedure", "Steps", "Technique", "Process",
     "Way", "Approach", "Strategy", "System", "Manner",
     "Framework", "Form", "Mode", "Prevention", "Avoidance", "Safeguard",
     "Protection", "Mitigation", "Reduction",
     "Intervention", "Defense", "Deterrence", "Shielding", "Do"])]

/-- `Modelled from the spec:` the `column_names` list of the missing
`chatbot.embeddings` module; spec §3 fixes the intent set `What, Why, How,
Symptoms`, and `maxFromEachColumn.py` line 60 defines the identical list
`['What', 'Why', 'How', 'Symptoms']`. -/
def column_names : List String := ["What", "Why", "How", "Symptoms"]

/-- The inner keyword loop for one column (response_generation.py lines
139-145): position of the first keyword (in list order) found in the
query, provided the record's column is non-empty (`position != -1 and
best_match_response.get(column)`); iterations over an empty column never
append and never break, which is observationally `none`. -/
def firstKeywordPos (ql : String) (kws : List String) (colVal : String) :
    Option Nat :=
  kws.findSome? (fun k =>
    match pyfind ql (pylower k) with
    | some p => if colVal ≠ "" then some p else none
    | none => none)

/-- The per-column pair collected by the outer loop for one table entry. -/
def columnPair (ql : String) (r : Record) (cw : String × List String) :
    Option (Nat × String) :=
  (firstKeywordPos ql cw.2 (r.getCol cw.1)).map (fun p => (p, r.getCol cw.1))

/-- The outer loop of response_generation.py lines 138-145: accumulates
`matching_columns` and the `match_found` flag over the intent table. -/
def collectMatches (ql : String) (r : Record) : List (Nat × String) × Bool :=
  intent_words.foldl (fun acc cw =>
      match columnPair ql r cw with
      | some pr => (acc.1 ++ [pr], true)
      | none => acc)
    ([], false)

/-- Stable insertion (new element goes after existing elements with equal
or smaller position), mirroring the stability of Python `list.sort`. -/
def insertByPos (x : Nat × String) : List (Nat × String) → List (Nat × String)
  | [] => [x]
  | y :: ys => if y.1 ≤ x.1 then y :: insertByPos x ys else x :: y :: ys

/-- `matching_columns.sort(key=lambda x: x[0])`: stable sort by position. -/
def sortByPos (l : List (Nat × String)) : List (Nat × String) :=
  l.foldl (fun acc x => insertByPos x acc) []

/-- First index of the maximum (numpy `argmax` keeps the first maximum). -/
def argmaxAux (bi : Nat) (bv : ℚ) (i : Nat) : List ℚ → Nat
  | [] => bi
  | x :: t => if x > bv then argmaxAux i x (i + 1) t else argmaxAux bi bv (i + 1) t

/-- `column_scores.argmax()`. -/
def argmaxIdx : List ℚ → Nat
  | [] => 0
  | x :: t => argmaxAux 0 x 1 t

/-- `match_columns(query, best_match_response)` of
src/chatbot/response_generation.py (lines 109-175).  Returns the combined
response string and `best_match_response_flag` (1 on the default/weak
path, 0 otherwise). -/
def match_columns {E : Type} (cos : E → E → ℚ) (encode : String → E)
    (column_embeddings : List E) (nm : String → String)
    (query : String) (r : Record) : String × Nat :=
  let query_lower := nm (pylower query)
  let (mcols, match_found) := collectMatches query_lower r
  -- lines 148-153: if no match was found, add the first column's response
  let (mcols2, flag) :=
    if match_found = false then
      match intent_words.head? with
      | some cw => if r.getCol cw.1 ≠ "" then (mcols ++ [(0, r.getCol cw.1)], 1)
                   else (mcols, 0)
      | none => (mcols, 0)
    else (mcols, 0)
  let responses := (sortByPos mcols2).map (·.2)
  if responses ≠ [] then (pyjoin " " responses, flag)
  else
    -- lines 166-175: fallback to the best-matching column by embedding
    let query_embedding := encode query_lower
    let column_scores := column_embeddings.map (fun ce => cos query_embedding ce)
    let best_column_index := argmaxIdx column_scores
    let best_column_name := column_names.getD best_column_index ""
    (r.getCol best_column_name, flag)

/-! ## Domain Gate (src/chatbot/response_generation.py, is_domain_relevant) -/

/-- `is_domain_relevant(query, threshold=0.4)` (lines 177-183); the same
code appears in `Logic1_OnlyCSV.py` lines 145-156. -/
def is_domain_relevant {E : Type} (cos : E → E → ℚ) (encode : String → E)
    (domain_embeddings : List E) (query : String) (threshold : ℚ) : Bool :=
  let query_embedding := encode (pylower query)
  (domain_embeddings.map (fun d => cos query_embedding d)).any
    (fun score => decide (score ≥ threshold))

/-! ## Conversation Orchestrator (src/chatbot/response_generation.py, get_response) -/

def disclaimer : String :=
  "\n For personalized advice or concerns about your health, Please consult our healthcare professional. We can provide you with the best guidance based on your specific needs."

def placeholder_response : String :=
  "This is a placeholder response generated for your question."

def fallback_response : String :=
  "I'm sorry, I can only answer questions related to women's heart health. Can you please clarify your question?"

/-- A Python value passed as the second argument of `match_columns`: the
direct branch passes one record dict at a time, the spelling-corrected
retry branch passes the whole list returned by `find_best_context`. -/
inductive PyMatchArg where
  | one : Record → PyMatchArg
  | many : List Record → PyMatchArg

/-- Dynamic-typing behaviour of `match_columns`: a list has no `.get`
attribute, so the lookup at line 142 raises before anything is returned. -/
def match_columns_dyn {E : Type} (cos : E → E → ℚ) (encode : String → E)
    (column_embeddings : List E) (nm : String → String)
    (query : String) : PyMatchArg → Except String (String × Nat)
  | .one r => .ok (match_columns cos encode column_embeddings nm query r)
  | .many _ => .error "AttributeError: 'list' object has no attribute 'get'"

/-- `get_response(user_input, threshold=0.3)` of
src/chatbot/response_generation.py (lines 189-236).  `nm` is the black-box
`correct_spelling`; Python truthiness of `find_best_context`'s result
(`None` or `[]` are both falsy) is modelled with `Option.getD []`.
An uncaught exception is an `Except.error`. -/
def get_response {E : Type} (cos : E → E → ℚ) (encode : String → E)
    (db : List (Record × RecEmb E)) (column_embeddings domain_embeddings : List E)
    (nm : String → String) (user_input : String) (threshold : ℚ) :
    Except String String :=
  let context_responses := (find_best_context cos encode db user_input threshold).getD []
  if context_responses ≠ [] then
    -- lines 193-210: route every record, join, append disclaimer on flag 1
    let st := context_responses.foldl
      (fun (acc : List String × Nat) cr =>
        let p := match_columns cos encode column_embeddings nm user_input cr
        (if p.1 ≠ "" then acc.1 ++ [p.1] else acc.1, p.2))
      ([], 0)
    let final_response := pyjoin " \n\n " st.1
    .ok (if st.2 = 1 then final_response ++ disclaimer else final_response)
  else
    let corrected_input := nm user_input
    let retry :=
      if corrected_input ≠ user_input then
        (find_best_context cos encode db corrected_input threshold).getD []
      else []
    if retry ≠ [] then
      -- lines 216-226: the whole list is passed to match_columns
      match match_columns_dyn cos encode column_embeddings nm corrected_input
          (.many retry) with
      | .error e => .error e
      | .ok p => .ok (if p.2 = 1 then p.1 ++ disclaimer else p.1)
    else
      -- lines 228-236: domain gate, then fixed refusal
      if is_domain_relevant cos encode domain_embeddings corrected_input (4/10) then
        .ok placeholder_response
      else .ok fallback_response

/-! ## src/Logic1_OnlyCSV.py and src/maxFromEachColumn.py -/

/-- `correct_spelling(text)` of Logic1_OnlyCSV.py lines 59-71 (identical in
maxFromEachColumn.py lines 83-94).  The spell checker is a black box
`corr : String → Option String` (`spellchecker.correction` may return
`None`); `correction(word) if correction(word) else word` keeps the word
when the correction is falsy (`None` or `""`). -/
def correct_spelling (corr : String → Option String) (text : String) : String :=
  if (pysplit text).length > 1 then
    pyjoin " " ((pysplit text).map (fun word =>
      match corr word with
      | some c => if c ≠ "" then c else word
      | none => word))
  else text

/-- The per-record component scores computed by Logic1_OnlyCSV.py lines
88-95.  Note the source computes `trigger_scores` from
`item_embeddings['synonyms_embeddings']` (line 88) and guards
`max_trigger_score` by `if synonyms_scores` (line 93), so the trigger
component is the synonym maximum, not the trigger similarity. -/
def l1_componentScores {E : Type} (cos : E → E → ℚ) (qe : E) (emb : RecEmb E) :
    ℚ × ℚ × ℚ :=
  let trigger_scores := emb.synonyms_embeddings.map (fun e => cos qe e)
  let synonyms_scores := emb.synonyms_embeddings.map (fun e => cos qe e)
  let keywords_scores := emb.keywords_embeddings.map (fun e => cos qe e)
  let max_trigger_score := if synonyms_scores ≠ [] then maxOr0 trigger_scores else 0
  let max_synonym_score := if synonyms_scores ≠ [] then maxOr0 synonyms_scores else 0
  let max_keyword_score := if keywords_scores ≠ [] then maxOr0 keywords_scores else 0
  (max_trigger_score, max_synonym_score, max_keyword_score)

/-- The per-record component scores computed by maxFromEachColumn.py lines
115-120 (and identically by response_generation.py lines 38-51 and
analyse_dataframe.py lines 17-22): trigger similarity against the trigger
embedding, synonym and keyword maxima defaulting to 0. -/
def mfc_componentScores {E : Type} (cos : E → E → ℚ) (qe : E) (emb : RecEmb E) :
    ℚ × ℚ × ℚ :=
  componentScores cos qe emb

/-- `find_best_context(query, threshold=0.5)` of Logic1_OnlyCSV.py lines
73-134: single running best of the maximum component (the `match_type`
bookkeeping does not affect the returned value); returns the matched
record's `response` column or `None`. -/
def l1_find_best_context {E : Type} (cos : E → E → ℚ) (encode : String → E)
    (db : List (SimpleRecord × RecEmb E)) (query : String) (threshold : ℚ) :
    Option String :=
  let qe := encode (pylower query)
  let best := db.foldl
    (fun (b : ℚ × Option String) e =>
      let c := l1_componentScores cos qe e.2
      let max_score := max c.1 (max c.2.1 c.2.2)
      if max_score > b.1 ∧ max_score ≥ threshold then (max_score, some e.1.response)
      else b)
    (0, none)
  best.2

/-- `get_response(user_input, threshold=0.7)` of Logic1_OnlyCSV.py lines
158-189.  String truthiness (`if context_response:`) is modelled with
`Option.getD ""`. -/
def l1_get_response {E : Type} (cos : E → E → ℚ) (encode : String → E)
    (db : List (SimpleRecord × RecEmb E)) (domain_embeddings : List E)
    (corr : String → Option String) (user_input : String) (threshold : ℚ) :
    String :=
  let context_response := (l1_find_best_context cos encode db user_input threshold).getD ""
  if context_response ≠ "" then context_response
  else
    let corrected_input := correct_spelling corr user_input
    let retry :=
      if corrected_input ≠ user_input then
        (l1_find_best_context cos encode db corrected_input threshold).getD ""
      else ""
    if retry ≠ "" then retry
    else if is_domain_relevant cos encode domain_embeddings corrected_input (4/10) then
      placeholder_response
    else fallback_response

/-! ## src/Different Concept Implementations/July18/app3Japanese.py -/

structure Turn where
  user_input : String
  bot_response : String
deriving DecidableEq

structure ContextHistory where
  context : List String
  history : List Turn
deriving DecidableEq

/-- `find_best_context(query, threshold=0.4)` of app3Japanese.py lines
59-79: running best of the maximum of the three component scores (trigger
similarity computed correctly against the trigger embedding here). -/
def j_find_best_context {E : Type} (cos : E → E → ℚ) (encode : String → E)
    (db : List (SimpleRecord × RecEmb E)) (query : String) (threshold : ℚ) :
    Option String :=
  let qe := encode (pylower query)
  let best := db.foldl
    (fun (b : ℚ × Option String) e =>
      let c := componentScores cos qe e.2
      let max_score := maxComp c
      if max_score > b.1 ∧ max_score ≥ threshold then (max_score, some e.1.response)
      else b)
    (0, none)
  best.2

def j_greetings : List String := ["こんにちは", "こんばんは", "おはよう"]

def j_greeting_reply : String := "こんにちは！心臓の健康についてどんな質問がありますか？"

def j_fallback : String :=
  "申し訳ありませんが、その質問にはお答えできません。心臓の健康に関する質問をお願いします。"

/-- `get_relevant_context(user_input, context_history)` of app3Japanese.py
lines 93-105 (`history[-2:]` and `history[-1:]` are `drop (len - 2)` and
`drop (len - 1)`). -/
def get_relevant_context (user_input : String) (ch : ContextHistory) : String :=
  let follow_up_keywords := ["what about", "and", "also", "more", "else", "further"]
  let fmt := fun (h : Turn) => "User: " ++ h.user_input ++ " Bot: " ++ h.bot_response
  if follow_up_keywords.any (fun k => (pyfind (pylower user_input) k).isSome)
      ∧ ch.history.length > 1 then
    pyjoin " " ((ch.history.drop (ch.history.length - 2)).map fmt)
  else
    pyjoin " " ((ch.history.drop (ch.history.length - 1)).map fmt)

/-- `get_response(user_input, context_history, threshold=0.4)` of
app3Japanese.py lines 107-136.  `gen` is the black-box Gemini call (its
internal try/except always produces a string).  On the matched branch the
turn is appended with an empty bot response, the last element is then
overwritten with the generated response, and only this branch truncates
`history` to its last 10 entries; the fallback branch appends without
truncating.  String truthiness of the matched response is modelled with
`Option.getD ""`. -/
def j_get_response {E : Type} (cos : E → E → ℚ) (encode : String → E)
    (db : List (SimpleRecord × RecEmb E)) (gen : String → String)
    (user_input0 : String) (ch : ContextHistory) (threshold : ℚ) :
    String × ContextHistory :=
  let user_input := pylower user_input0
  if j_greetings.any (fun g => decide (user_input = g)) then
    (j_greeting_reply, ch)
  else
    let context_response := (j_find_best_context cos encode db user_input threshold).getD ""
    if context_response ≠ "" then
      let ch1 : ContextHistory :=
        ⟨ch.context ++ [context_response], ch.history ++ [⟨user_input, ""⟩]⟩
      let relevant_context := get_relevant_context user_input ch1
      let prompt :=
        "User asked: " ++ user_input ++ "\nContext: " ++ relevant_context ++
        "\nMatched response: " ++ context_response ++ "\n" ++
        "Please enhance and provide a concise, friendly, and helpful response within 150 words. " ++
        "Also avoid any AI Disclaimers in the message so that it does not sound robotic."
      let response := gen prompt
      let hist2 := ch1.history.dropLast ++ [⟨user_input, response⟩]
      let hist3 := if hist2.length > 10 then hist2.drop (hist2.length - 10) else hist2
      (response, ⟨ch1.context, hist3⟩)
    else
      (j_fallback, ⟨ch.context, ch.history ++ [⟨user_input, j_fallback⟩]⟩)

/-! ## Declarative characterizations used by the claim theorems -/

/-- The records flagged strong (some component `≥ 0.65`), in index order:
Pass 2 appends every one of them to `best_max_match_response`. -/
def strongRecs {E : Type} (cos : E → E → ℚ) (qe : E)
    (db : List (Record × RecEmb E)) : List Record :=
  (db.filter (fun e => isStrongC (componentScores cos qe e.2))).map (fun e => e.1)

/-- The maximum component score of each strong record, in index order. -/
def strongMaxes {E : Type} (cos : E → E → ℚ) (qe : E)
    (db : List (Record × RecEmb E)) : List ℚ :=
  (db.filter (fun e => isStrongC (componentScores cos qe e.2))).map
    (fun e => maxComp (componentScores cos qe e.2))

/-- The average score of each record with all components `< 0.65`, in
index order. -/
def weakAvgs {E : Type} (cos : E → E → ℚ) (qe : E)
    (db : List (Record × RecEmb E)) : List ℚ :=
  (db.filter (fun e => isWeakC (componentScores cos qe e.2))).map
    (fun e => avgComp (componentScores cos qe e.2))

/-- The records that strictly improve the running best average while having
all components `< 0.65`: Pass 2 appends exactly these to
`best_match_response`. -/
def avgImprovers {E : Type} (cos : E → E → ℚ) (qe : E) (cur : ℚ) :
    List (Record × RecEmb E) → List Record
  | [] => []
  | e :: t =>
      let c := componentScores cos qe e.2
      if avgComp c > cur ∧ isWeakC c then e.1 :: avgImprovers cos qe (avgComp c) t
      else avgImprovers cos qe cur t

/-- Claimed (spec-side) Pass-2 behaviour of claim C2, following the
claim's words rather than the source: `best_strong` is the highest
component score among strong records, `best_avg` the highest average among
all-weak records, and the branches return the record(s) achieving those
bests.  Used only to compare against `find_best_context`. -/
def claimed_find_best_context {E : Type} (cos : E → E → ℚ) (encode : String → E)
    (db : List (Record × RecEmb E)) (query : String) (threshold : ℚ) :
    Option (List Record) :=
  let qe := encode (pylower query)
  let strong := db.filter (fun e => isStrongC (componentScores cos qe e.2))
  let weak := db.filter (fun e => isWeakC (componentScores cos qe e.2))
  let best_strong := maxOr0 (strong.map (fun e => maxComp (componentScores cos qe e.2)))
  let best_avg := maxOr0 (weak.map (fun e => avgComp (componentScores cos qe e.2)))
  if best_avg ≥ threshold ∧ best_strong < best_avg then
    some ((weak.filter
      (fun e => avgComp (componentScores cos qe e.2) = best_avg)).map (fun e => e.1))
  else if best_strong > best_avg then
    some ((strong.filter
      (fun e => maxComp (componentScores cos qe e.2) = best_strong)).map (fun e => e.1))
  else none

/-- Number of intents with some keyword occurring in the normalized query
(irrespective of column emptiness) — the quantity claim C3 counts. -/
def occursCount (ql : String) : Nat :=
  (intent_words.filter (fun cw => cw.2.any (fun k => (pyfind ql (pylower k)).isSome))).length

/-- The `(position, column value)` pairs the outer loop of `match_columns`
collects, stated declaratively: one pair per intent whose first occurring
keyword exists and whose column is non-empty. -/
def intentPairs (ql : String) (r : Record) : List (Nat × String) :=
  intent_words.filterMap (columnPair ql r)

/-- Claimed (spec-side) default of claim C4, following the claim's words:
the column of the first IntentName in table order whose value is
non-empty.  Used only to compare against `match_columns`. -/
def claimedFirstNonEmptyCol (r : Record) : String :=
  (((intent_words.map (fun cw => r.getCol cw.1)).filter (fun v => v ≠ "")).headD "")

/-! ## Concrete instances used by counterexamples and witnesses -/

def c1rec : Record := ⟨"angina", [], [], "Angina is pain.", "", "", ""⟩
def c1db : List (Record × RecEmb Nat) := [(c1rec, ⟨0, [], []⟩)]
def c1db2 : List (Record × RecEmb Nat) := [(c1rec, ⟨9, [7], [8]⟩)]

def c2cos : Nat → Nat → ℚ := fun _ b => if b = 1 then 3/5 else if b = 2 then 63/100 else 0
def c2recX : Record := ⟨"alpha", [], [], "", "", "", ""⟩
def c2recY : Record := ⟨"beta", [], [], "", "", "", ""⟩
def c2db : List (Record × RecEmb Nat) := [(c2recX, ⟨1, [], []⟩), (c2recY, ⟨2, [], []⟩)]

def c3rec : Record := ⟨"t", [], [], "a", "", "", ""⟩
def c3wrec : Record := ⟨"angina", [], [], "Angina is pain.", "Because.", "", ""⟩

def c4rec : Record := ⟨"t", [], [], "", "b", "", ""⟩
def c4cos : Nat → Nat → ℚ := fun _ b => if b = 10 then 1 else 0
def c4colEmbs : List Nat := [10, 11, 12, 13]
def c4wrec : Record := ⟨"t", [], [], "w", "", "", ""⟩

def c5rec1 : Record := ⟨"alpha", [], [], "x", "", "", ""⟩
def c5rec2 : Record := ⟨"beta", [], [], "", "", "", "y"⟩
def c5db : List (Record × RecEmb Nat) := [(c5rec1, ⟨0, [], []⟩), (c5rec2, ⟨0, [], []⟩)]

def c6db : List (SimpleRecord × RecEmb Nat) := [(⟨"t", [], [], "resp"⟩, ⟨0, [], []⟩)]

def c7rec : Record := ⟨"angina", [], [], "Angina is pain.", "", "", ""⟩
def c7db : List (Record × RecEmb Nat) := [(c7rec, ⟨0, [], []⟩)]
def c7nm : String → String := fun s => if s = "wat is anginaa" then "what is angina" else s

def c9cos : Nat → Nat → ℚ := fun _ b => if b = 1 then 9/10 else 1/10
def c9emb : RecEmb Nat := ⟨1, [2], [3]⟩

/-! ## Helper lemmas -/

theorem filter_map_fst {α β : Type} (p : α → Bool) :
    ∀ l : List (α × β),
      (l.filter (fun e => p e.1)).map (fun e => e.1) = (l.map (fun e => e.1)).filter p
  | [] => rfl
  | e :: t => by
      by_cases h : p e.1 = true
      · simp [List.filter_cons, h, filter_map_fst p t]
      · simp [List.filter_cons, h, filter_map_fst p t]

theorem getLast?_getD_cons {α : Type} :
    ∀ (l : List α) (x d : α), (x :: l).getLast?.getD d = l.getLast?.getD x
  | [], x, d => rfl
  | y :: t, x, d => by
      rw [List.getLast?_cons_cons, getLast?_getD_cons t y d, getLast?_getD_cons t y x]

theorem foldl_overwrite {α : Type} :
    ∀ (l : List α) (i : α), l.foldl (fun _ x => x) i = l.getLast?.getD i
  | [], _ => rfl
  | x :: t, i => by
      rw [List.foldl_cons, foldl_overwrite t x, getLast?_getD_cons t x i]

theorem strong_not_weak {c : ℚ × ℚ × ℚ} (h : isStrongC c = true) : isWeakC c = false := by
  simp only [isStrongC, decide_eq_true_eq] at h
  unfold isWeakC
  apply decide_eq_false
  rintro ⟨h1, h2, h3⟩
  rcases h with h | h | h <;> linarith

/-- Closed form of the Pass-2 loop of `find_best_context`: the running
best-average is a max-fold over the weak averages, `best_max_match_score`
is the last strong record's maximum component (overwrite semantics), and
the two response lists accumulate the improvers and all strong records. -/
theorem pass2_foldl {E : Type} (cos : E → E → ℚ) (qe : E) :
    ∀ (db : List (Record × RecEmb E)) (s : Pass2State),
      db.foldl (pass2Step cos qe) s =
        { best_match_score := (weakAvgs cos qe db).foldl max s.best_match_score,
          best_max_match_score :=
            (strongMaxes cos qe db).foldl (fun _ x => x) s.best_max_match_score,
          best_match_response :=
            s.best_match_response ++ avgImprovers cos qe s.best_match_score db,
          best_max_match_response := s.best_max_match_response ++ strongRecs cos qe db }
  | [], s => by simp [weakAvgs, strongMaxes, avgImprovers, strongRecs]
  | e :: t, s => by
      have IH := pass2_foldl cos qe t
      by_cases hs : isStrongC (componentScores cos qe e.2) = true
      · have hw := strong_not_weak hs
        rw [List.foldl_cons]
        have hstep : pass2Step cos qe s e =
            { s with best_max_match_score := maxComp (componentScores cos qe e.2),
                     best_max_match_response := s.best_max_match_response ++ [e.1] } := by
          simp [pass2Step, hs, hw]
        rw [hstep, IH]
        simp [weakAvgs, strongMaxes, avgImprovers, strongRecs, List.filter_cons, hs, hw]
      · rw [List.foldl_cons]
        by_cases hc1 : isWeakC (componentScores cos qe e.2) = true
        · by_cases hc2 : avgComp (componentScores cos qe e.2) > s.best_match_score
          · have hstep : pass2Step cos qe s e =
                { s with best_match_score := avgComp (componentScores cos qe e.2),
                         best_match_response := s.best_match_response ++ [e.1] } := by
              simp [pass2Step, hs, hc1, hc2]
            rw [hstep, IH]
            have hmax : max s.best_match_score (avgComp (componentScores cos qe e.2)) =
                avgComp (componentScores cos qe e.2) := max_eq_right (le_of_lt hc2)
            simp [weakAvgs, strongMaxes, avgImprovers, strongRecs, List.filter_cons,
              hs, hc1, hc2, hmax]
          · have hstep : pass2Step cos qe s e = s := by
              simp [pass2Step, hs, hc1, hc2]
            rw [hstep, IH]
            have hmax : max s.best_match_score (avgComp (componentScores cos qe e.2)) =
                s.best_match_score := max_eq_left (not_lt.mp hc2)
            simp [weakAvgs, strongMaxes, avgImprovers, strongRecs, List.filter_cons,
              hs, hc1, hc2, hmax]
        · have hstep : pass2Step cos qe s e = s := by
            simp [pass2Step, hs, hc1]
          rw [hstep, IH]
          simp [weakAvgs, strongMaxes, avgImprovers, strongRecs, List.filter_cons, hs, hc1]

/-- Closed form of the outer `match_columns` loop: the collected list is a
`filterMap` over the intent table and `match_found` records whether any
column produced a pair. -/
theorem foldl_collect {γ : Type} (g : γ → Option (Nat × String)) :
    ∀ (tbl : List γ) (a : List (Nat × String)) (b : Bool),
      tbl.foldl (fun acc cw =>
          match g cw with
          | some pr => (acc.1 ++ [pr], true)
          | none => acc) (a, b)
      = (a ++ tbl.filterMap g, b || tbl.any (fun cw => (g cw).isSome))
  | [], a, b => by simp
  | cw :: t, a, b => by
      cases hg : g cw with
      | some pr =>
          rw [List.foldl_cons]
          simp only [hg]
          rw [foldl_collect g t (a ++ [pr]) true]
          simp [List.filterMap_cons, hg]
      | none =>
          rw [List.foldl_cons]
          simp only [hg]
          rw [foldl_collect g t a b]
          simp [List.filterMap_cons, hg]

theorem collectMatches_eq (ql : String) (r : Record) :
    collectMatches ql r =
      (intentPairs ql r,
       intent_words.any (fun cw => (columnPair ql r cw).isSome)) := by
  unfold collectMatches intentPairs
  rw [foldl_collect (columnPair ql r) intent_words [] false]
  simp

theorem filterMap_ne_nil_any {γ : Type} (g : γ → Option (Nat × String)) :
    ∀ tbl : List γ, tbl.filterMap g ≠ [] → tbl.any (fun cw => (g cw).isSome) = true
  | [], h => absurd rfl h
  | cw :: t, h => by
      cases hg : g cw with
      | some pr => simp [hg]
      | none =>
          simp only [List.filterMap_cons, hg] at h
          simpa [hg] using filterMap_ne_nil_any g t h

theorem insertByPos_perm (x : Nat × String) :
    ∀ l : List (Nat × String), (insertByPos x l).Perm (x :: l)
  | [] => List.Perm.refl _
  | y :: ys => by
      unfold insertByPos
      by_cases h : y.1 ≤ x.1
      · simp only [h, if_true]
        exact ((insertByPos_perm x ys).cons y).trans (List.Perm.swap x y ys)
      · simp only [h, if_false]
        exact List.Perm.refl _

theorem sortByPos_foldl_perm :
    ∀ (l acc : List (Nat × String)),
      (l.foldl (fun acc x => insertByPos x acc) acc).Perm (acc ++ l)
  | [], acc => by simp
  | x :: t, acc => by
      rw [List.foldl_cons]
      refine (sortByPos_foldl_perm t (insertByPos x acc)).trans ?_
      refine (((insertByPos_perm x acc).append_right t).trans ?_)
      exact List.perm_middle.symm

theorem sortByPos_perm (l : List (Nat × String)) : (sortByPos l).Perm l := by
  simpa using sortByPos_foldl_perm l []

theorem insertByPos_sorted (x : Nat × String) :
    ∀ l : List (Nat × String),
      l.Pairwise (fun a b => a.1 ≤ b.1) →
      (insertByPos x l).Pairwise (fun a b => a.1 ≤ b.1)
  | [], _ => by simp [insertByPos]
  | y :: ys, h => by
      rcases List.pairwise_cons.mp h with ⟨hy, hys⟩
      unfold insertByPos
      by_cases hle : y.1 ≤ x.1
      · simp only [hle, if_true]
        refine List.pairwise_cons.mpr ⟨?_, insertByPos_sorted x ys hys⟩
        intro z hz
        have hz' : z ∈ x :: ys := ((insertByPos_perm x ys).mem_iff).mp hz
        rcases List.mem_cons.mp hz' with rfl | hz''
        · exact hle
        · exact hy z hz''
      · simp only [hle, if_false]
        refine List.pairwise_cons.mpr ⟨?_, h⟩
        intro z hz
        rcases List.mem_cons.mp hz with rfl | hz'
        · exact le_of_lt (not_le.mp hle)
        · exact le_trans (le_of_lt (not_le.mp hle)) (hy z hz')

theorem sortByPos_foldl_sorted :
    ∀ (l acc : List (Nat × String)),
      acc.Pairwise (fun a b => a.1 ≤ b.1) →
      (l.foldl (fun acc x => insertByPos x acc) acc).Pairwise (fun a b => a.1 ≤ b.1)
  | [], _, h => h
  | x :: t, acc, h => by
      rw [List.foldl_cons]
      exact sortByPos_foldl_sorted t (insertByPos x acc) (insertByPos_sorted x acc h)

theorem sortByPos_sorted (l : List (Nat × String)) :
    (sortByPos l).Pairwise (fun a b => a.1 ≤ b.1) :=
  sortByPos_foldl_sorted l [] (List.Pairwise.nil)

/-- Closed form of the per-record loop in `get_response`'s direct branch:
the accumulated responses are the non-empty routed strings and the final
flag is the last record's flag. -/
theorem getLastD_snd (l : List (String × Nat)) (p q : String × Nat) (h : p.2 = q.2) :
    (l.getLast?.getD p).2 = (l.getLast?.getD q).2 := by
  cases hl : l.getLast? with
  | none => simpa using h
  | some x => simp

theorem respLoop {α : Type} (f : α → String × Nat) :
    ∀ (rs : List α) (a : List String) (fl : Nat),
      rs.foldl (fun (acc : List String × Nat) cr =>
          (if (f cr).1 ≠ "" then acc.1 ++ [(f cr).1] else acc.1, (f cr).2)) (a, fl)
      = (a ++ (rs.map f).filterMap (fun p => if p.1 ≠ "" then some p.1 else none),
         ((rs.map f).getLast?.getD ("", fl)).2)
  | [], a, fl => by simp
  | r :: t, a, fl => by
      rw [List.foldl_cons]
      have hlast : ((t.map f).getLast?.getD ("", (f r).2)).2 =
          (((r :: t).map f).getLast?.getD ("", fl)).2 := by
        rw [List.map_cons, getLast?_getD_cons (t.map f) (f r) ("", fl)]
        exact getLastD_snd (t.map f) ("", (f r).2) (f r) rfl
      by_cases hr : (f r).1 ≠ ""
      · rw [if_pos hr, respLoop f t (a ++ [(f r).1]) (f r).2, Prod.mk.injEq]
        refine ⟨?_, hlast⟩
        rw [List.map_cons, List.filterMap_cons]
        simp [hr]
      · rw [if_neg hr, respLoop f t a (f r).2, Prod.mk.injEq]
        refine ⟨?_, hlast⟩
        rw [List.map_cons, List.filterMap_cons]
        simp [hr]

/-- If Pass 1 collects at least one record, `find_best_context` returns
exactly the Pass-1 list. -/
theorem find_best_context_pass1 {E : Type} (cos : E → E → ℚ) (encode : String → E)
    (db : List (Record × RecEmb E)) (query : String) (thr : ℚ)
    (h : pass1Matches db query ≠ []) :
    find_best_context cos encode db query thr = some (pass1Matches db query) := by
  simp only [find_best_context]
  rw [if_pos h]

/-! ## Claim theorems -/

/-- C1: Pass-1 lexical shortcut precedence.  If the lower-cased whitespace
tokens of the query intersect the tokens of at least one record's trigger
word, then `find_best_context` returns exactly the records with non-empty
intersection, in knowledge-base index order; and the result is independent
of the embedding data (encoder, similarity function, record embeddings and
threshold), so embedding scores never affect it. -/
theorem C1_pass1_lexical_shortcut {E1 E2 : Type}
    (cos1 : E1 → E1 → ℚ) (encode1 : String → E1) (db1 : List (Record × RecEmb E1))
    (thr1 : ℚ)
    (cos2 : E2 → E2 → ℚ) (encode2 : String → E2) (db2 : List (Record × RecEmb E2))
    (thr2 : ℚ) (query : String)
    (hrec : db1.map (fun e => e.1) = db2.map (fun e => e.1))
    (hex : ∃ e ∈ db1, lexCommon (pysplit (pylower (pystrip query))) e.1 = true) :
    find_best_context cos1 encode1 db1 query thr1 =
      some ((db1.map (fun e => e.1)).filter
        (lexCommon (pysplit (pylower (pystrip query)))))
    ∧ find_best_context cos1 encode1 db1 query thr1 =
        find_best_context cos2 encode2 db2 query thr2 := by
  have hqw : pass1Matches db1 query =
      (db1.map (fun e => e.1)).filter (lexCommon (pysplit (pylower (pystrip query)))) := by
    unfold pass1Matches
    exact filter_map_fst _ db1
  have hne1 : pass1Matches db1 query ≠ [] := by
    obtain ⟨e, he, hl⟩ := hex
    have hmem : e.1 ∈ pass1Matches db1 query := by
      unfold pass1Matches
      exact List.mem_map_of_mem _ (List.mem_filter.mpr ⟨he, hl⟩)
    exact List.ne_nil_of_mem hmem
  have heq2 : pass1Matches db2 query = pass1Matches db1 query := by
    unfold pass1Matches
    rw [filter_map_fst, filter_map_fst, hrec]
  have hne2 : pass1Matches db2 query ≠ [] := by rw [heq2]; exact hne1
  constructor
  · rw [find_best_context_pass1 cos1 encode1 db1 query thr1 hne1, hqw]
  · rw [find_best_context_pass1 cos1 encode1 db1 query thr1 hne1,
      find_best_context_pass1 cos2 encode2 db2 query thr2 hne2, heq2]

/-- Witness for C1 at a concrete knowledge base and query, with two
different embedding assignments. -/
theorem C1_witness :
    (c1db.map (fun e => e.1) = c1db2.map (fun e => e.1)) ∧
    (∃ e ∈ c1db, lexCommon (pysplit (pylower (pystrip "what is angina"))) e.1 = true) ∧
    (find_best_context (fun _ _ => (0 : ℚ)) (fun _ => (0 : Nat)) c1db "what is angina" (3/10) =
        some ((c1db.map (fun e => e.1)).filter
          (lexCommon (pysplit (pylower (pystrip "what is angina")))))
      ∧ find_best_context (fun _ _ => (0 : ℚ)) (fun _ => (0 : Nat)) c1db "what is angina" (3/10) =
          find_best_context (fun _ _ => (1 : ℚ)) (fun _ => (0 : Nat)) c1db2 "what is angina" (1/2)) :=
  ⟨by decide, by decide,
    C1_pass1_lexical_shortcut (fun _ _ => (0 : ℚ)) (fun _ => (0 : Nat)) c1db (3/10)
      (fun _ _ => (1 : ℚ)) (fun _ => (0 : Nat)) c1db2 (1/2) "what is angina"
      (by decide) (by decide)⟩

unseal Rat.add Rat.mul Rat.inv in
/-- C2 counterexample: with Pass 1 empty, two records whose averages both
improve the running best are BOTH returned, while the claim's decision
rule (return the record(s) achieving `best_avg`) returns only the last
one; so `find_best_context` differs from the claimed behaviour. -/
theorem C2_counterexample :
    pass1Matches c2db "zz" = [] ∧
    find_best_context c2cos (fun _ => 0) c2db "zz" (1/10) ≠
      claimed_find_best_context c2cos (fun _ => 0) c2db "zz" (1/10) := by decide

/-- C2 amended: with Pass 1 empty, `find_best_context` returns the list of
records that strictly improved the running best average iff that best
average reaches the threshold and strictly exceeds the LAST strong
record's maximum component (`best_max_match_score` is overwritten, not
maxed); otherwise it returns the list of ALL strong records iff the last
strong record's maximum component strictly exceeds the best average;
otherwise `none`. -/
theorem C2_pass2_decision_rule {E : Type} (cos : E → E → ℚ) (encode : String → E)
    (db : List (Record × RecEmb E)) (query : String) (threshold : ℚ)
    (h : pass1Matches db query = []) :
    find_best_context cos encode db query threshold =
      (let qe := encode (pylower query)
       let best_strong := (strongMaxes cos qe db).getLast?.getD 0
       let best_avg := (weakAvgs cos qe db).foldl max 0
       if best_avg ≥ threshold ∧ best_strong < best_avg then
         some (avgImprovers cos qe 0 db)
       else if best_strong > best_avg then some (strongRecs cos qe db)
       else none) := by
  simp only [find_best_context, h, ne_eq, not_true_eq_false, if_false]
  rw [pass2_foldl cos (encode (pylower query)) db ⟨0, 0, [], []⟩]
  simp only [foldl_overwrite, List.nil_append]

/-- Witness for C2 on a concrete two-record base with empty Pass 1. -/
theorem C2_witness :
    pass1Matches c2db "zz" = [] ∧
    find_best_context c2cos (fun _ => 0) c2db "zz" (1/10) =
      (let qe := (0 : Nat)
       let best_strong := (strongMaxes c2cos qe c2db).getLast?.getD 0
       let best_avg := (weakAvgs c2cos qe c2db).foldl max 0
       if best_avg ≥ (1/10 : ℚ) ∧ best_strong < best_avg then
         some (avgImprovers c2cos qe 0 c2db)
       else if best_strong > best_avg then some (strongRecs c2cos qe c2db)
       else none) :=
  ⟨by decide, C2_pass2_decision_rule c2cos (fun _ => 0) c2db "zz" (1/10) (by decide)⟩

/-- C3 counterexample: for the query "why and how" two intents (Why and
How) have occurring keywords, but both their columns are empty; the claim
predicts the concatenation of the corresponding non-empty columns (the
empty string), while `match_columns` instead returns the default What
column. -/
theorem C3_counterexample :
    2 ≤ occursCount "why and how" ∧
    (match_columns (fun _ _ => (0 : ℚ)) (fun _ => (0 : Nat)) [] id "why and how" c3rec).1 ≠
      pyjoin " " ((sortByPos (intentPairs "why and how" c3rec)).map (fun p => p.2)) := by
  decide

/-- C3 amended: when at least two intents have a keyword occurring in the
normalized query AND at least one of the matching intents has a non-empty
column, `match_columns` returns exactly the non-empty columns of the
matching intents joined with a single space, ordered by ascending position
of each intent's first matching keyword (ties keeping table order), with
the weak-match flag clear; the sorted pair list is a permutation of the
collected pairs and is sorted by position. -/
theorem C3_intent_position_order {E : Type} (cos : E → E → ℚ) (encode : String → E)
    (column_embeddings : List E) (nm : String → String) (query : String) (r : Record)
    (h2 : 2 ≤ occursCount (nm (pylower query)))
    (hne : intentPairs (nm (pylower query)) r ≠ []) :
    match_columns cos encode column_embeddings nm query r =
      (pyjoin " " ((sortByPos (intentPairs (nm (pylower query)) r)).map (fun p => p.2)), 0)
    ∧ (sortByPos (intentPairs (nm (pylower query)) r)).Pairwise (fun a b => a.1 ≤ b.1)
    ∧ (sortByPos (intentPairs (nm (pylower query)) r)).Perm
        (intentPairs (nm (pylower query)) r) := by
  refine ⟨?_, sortByPos_sorted _, sortByPos_perm _⟩
  have hfound : intent_words.any
      (fun cw => (columnPair (nm (pylower query)) r cw).isSome) = true :=
    filterMap_ne_nil_any (columnPair (nm (pylower query)) r) intent_words hne
  have hresp : (sortByPos (intentPairs (nm (pylower query)) r)).map (fun p => p.2) ≠ [] := by
    intro hmap
    apply hne
    have hlen := (sortByPos_perm (intentPairs (nm (pylower query)) r)).length_eq
    have hsnil : sortByPos (intentPairs (nm (pylower query)) r) = [] :=
      List.map_eq_nil_iff.mp hmap
    rw [hsnil] at hlen
    exact List.eq_nil_of_length_eq_zero hlen.symm
  simp only [match_columns, collectMatches_eq, hfound]
  rw [if_neg (by decide : ¬ (true = false))]
  rw [if_pos hresp]

/-- C4 counterexample: for a record with empty What column and non-empty
Why column and a query with no occurring intent keyword, the claim
predicts the first non-empty column in table order ("b") with the
weak-match flag set, but `match_columns` instead takes the embedding
fallback and returns the empty What column with the flag clear. -/
theorem C4_counterexample :
    intent_words.all (fun cw => cw.2.all (fun k => (pyfind "zzz" (pylower k)).isNone)) = true ∧
    match_columns c4cos (fun _ => 0) c4colEmbs id "zzz" c4rec ≠
      (claimedFirstNonEmptyCol c4rec, 1) := by decide

/-- C4 amended: if no intent keyword occurs in the normalized query, the
router only consults the FIRST table column (What): it returns the What
column with the weak-match flag set when What is non-empty; when What is
empty it falls back to embedding-similarity column selection with the
flag clear. -/
theorem C4_weak_match_default {E : Type} (cos : E → E → ℚ) (encode : String → E)
    (column_embeddings : List E) (nm : String → String) (query : String) (r : Record)
    (hq : ∀ cw ∈ intent_words, ∀ k ∈ cw.2, pyfind (nm (pylower query)) (pylower k) = none) :
    (r.What ≠ "" → match_columns cos encode column_embeddings nm query r = (r.What, 1)) ∧
    (r.What = "" → match_columns cos encode column_embeddings nm query r =
      (r.getCol (column_names.getD
        (argmaxIdx (column_embeddings.map
          (fun ce => cos (encode (nm (pylower query))) ce))) ""), 0)) := by
  have hcp : ∀ cw ∈ intent_words, columnPair (nm (pylower query)) r cw = none := by
    intro cw hcw
    unfold columnPair firstKeywordPos
    have hnone : (cw.2.findSome? (fun k =>
        match pyfind (nm (pylower query)) (pylower k) with
        | some p => if r.getCol cw.1 ≠ "" then some p else none
        | none => none)) = none := by
      rw [List.findSome?_eq_none_iff]
      intro k hk
      rw [hq cw hcw k hk]
    rw [hnone]
    rfl
  have hpairs : intentPairs (nm (pylower query)) r = [] := by
    unfold intentPairs
    exact List.filterMap_eq_nil_iff.mpr hcp
  have hfound : intent_words.any
      (fun cw => (columnPair (nm (pylower query)) r cw).isSome) = false := by
    rw [List.any_eq_false]
    intro cw hcw
    rw [hcp cw hcw]
    simp
  constructor
  · intro hw
    simp only [match_columns, collectMatches_eq, hfound, hpairs]
    have hhead : intent_words.head? = some ("What",
        ["What", "Define", "Identify", "Describe", "Clarify", "Specify", "Detail",
         "Outline", "State", "Explain", "Determine", "Depict",
         "Summarize", "Designate", "Distinguish"]) := by rfl
    rw [hhead]
    have hcol : Record.getCol r "What" = r.What := by simp [Record.getCol]
    simp only [hcol, hw, if_true, ite_true]
    simp [sortByPos, insertByPos, pyjoin, hw]
  · intro hw
    simp only [match_columns, collectMatches_eq, hfound, hpairs]
    have hhead : intent_words.head? = some ("What",
        ["What", "Define", "Identify", "Describe", "Clarify", "Specify", "Detail",
         "Outline", "State", "Explain", "Determine", "Depict",
         "Summarize", "Designate", "Distinguish"]) := by rfl
    rw [hhead]
    have hcol : Record.getCol r "What" = r.What := by simp [Record.getCol]
    simp [hcol, hw, sortByPos]

/-- Witness for C3: "why does angina happen and what is angina" routes the
Why column before the What column. -/
theorem C3_witness :
    2 ≤ occursCount (id (pylower "why does angina happen and what is angina")) ∧
    intentPairs (id (pylower "why does angina happen and what is angina")) c3wrec ≠ [] ∧
    (match_columns (fun _ _ => (0 : ℚ)) (fun _ => (0 : Nat)) [] id
        "why does angina happen and what is angina" c3wrec =
      (pyjoin " " ((sortByPos (intentPairs
        (id (pylower "why does angina happen and what is angina")) c3wrec)).map
          (fun p => p.2)), 0)) ∧
    match_columns (fun _ _ => (0 : ℚ)) (fun _ => (0 : Nat)) [] id
        "why does angina happen and what is angina" c3wrec =
      ("Because. Angina is pain.", 0) :=
  ⟨by decide, by decide,
    (C3_intent_position_order (fun _ _ => (0 : ℚ)) (fun _ => (0 : Nat)) [] id
      "why does angina happen and what is angina" c3wrec (by decide) (by decide)).1,
    by decide⟩

/-- Witness for C4 at a record with non-empty What column. -/
theorem C4_witness :
    (∀ cw ∈ intent_words, ∀ k ∈ cw.2, pyfind (id (pylower "zzz")) (pylower k) = none) ∧
    c4wrec.What ≠ "" ∧
    match_columns (fun _ _ => (0 : ℚ)) (fun _ => (0 : Nat)) [] id "zzz" c4wrec =
      (c4wrec.What, 1) :=
  ⟨by decide, by decide,
    (C4_weak_match_default (fun _ _ => (0 : ℚ)) (fun _ => (0 : Nat)) [] id "zzz" c4wrec
      (by decide)).1 (by decide)⟩

unseal Rat.add Rat.mul Rat.inv in
/-- C5 counterexample: with two lexically matched records where the FIRST
routes through the weak-match default (flag 1) and the last routes through
an explicit keyword match (flag 0), `get_response` omits the disclaimer,
while the claim requires it whenever at least one constituent used the
weak-match fallback. -/
theorem C5_counterexample :
    (match_columns (fun _ _ => (0 : ℚ)) (fun _ => (0 : Nat)) [] id
      "alpha beta occurrences" c5rec1).2 = 1 ∧
    get_response (fun _ _ => (0 : ℚ)) (fun _ => (0 : Nat)) c5db [] [] id
      "alpha beta occurrences" (3/10) = .ok ("x \n\n y") ∧
    ("x \n\n y" : String) ≠ "x \n\n y" ++ disclaimer := by
  refine ⟨by decide, ?_, by decide⟩
  rfl

/-- C5 amended: on the direct-match branch `get_response` joins the
non-empty routed responses with " \n\n " and appends the disclaimer iff
the LAST matched record's routing used the weak-match default (not "any
constituent"). -/
theorem C5_disclaimer_last_flag {E : Type} (cos : E → E → ℚ) (encode : String → E)
    (db : List (Record × RecEmb E)) (column_embeddings domain_embeddings : List E)
    (nm : String → String) (user_input : String) (threshold : ℚ) (rs : List Record)
    (h : (find_best_context cos encode db user_input threshold).getD [] = rs)
    (hne : rs ≠ []) :
    get_response cos encode db column_embeddings domain_embeddings nm user_input threshold =
      .ok (let pairs := rs.map (match_columns cos encode column_embeddings nm user_input)
           let joined := pyjoin " \n\n "
             (pairs.filterMap (fun p => if p.1 ≠ "" then some p.1 else none))
           if (pairs.getLast?.getD ("", 0)).2 = 1 then joined ++ disclaimer else joined) := by
  simp only [get_response, h, ne_eq, hne, not_false_eq_true, if_true, if_pos hne]
  rw [respLoop (match_columns cos encode column_embeddings nm user_input) rs [] 0]
  simp

/-- Witness for C5 on a concrete two-record direct match. -/
theorem C5_witness :
    (find_best_context (fun _ _ => (0 : ℚ)) (fun _ => (0 : Nat)) c5db
        "alpha beta occurrences" (3/10)).getD [] = [c5rec1, c5rec2] ∧
    ([c5rec1, c5rec2] : List Record) ≠ [] ∧
    get_response (fun _ _ => (0 : ℚ)) (fun _ => (0 : Nat)) c5db [] [] id
        "alpha beta occurrences" (3/10) =
      .ok (let pairs := [c5rec1, c5rec2].map
             (match_columns (fun _ _ => (0 : ℚ)) (fun _ => (0 : Nat)) [] id
               "alpha beta occurrences")
           let joined := pyjoin " \n\n "
             (pairs.filterMap (fun p => if p.1 ≠ "" then some p.1 else none))
           if (pairs.getLast?.getD ("", 0)).2 = 1 then joined ++ disclaimer else joined) :=
  ⟨by decide, by decide,
    C5_disclaimer_last_flag (fun _ _ => (0 : ℚ)) (fun _ => (0 : Nat)) c5db [] [] id
      "alpha beta occurrences" (3/10) [c5rec1, c5rec2] (by decide) (by decide)⟩

theorem truncate_eq (l : List Turn) :
    (if l.length > 10 then l.drop (l.length - 10) else l) = l.drop (l.length - 10) := by
  by_cases h : l.length > 10
  · rw [if_pos h]
  · rw [if_neg h, Nat.sub_eq_zero_of_le (Nat.not_lt.mp h), List.drop_zero]

/-- C6 counterexample: eleven consecutive unmatched turns (empty knowledge
base, non-greeting input) leave the conversation history at length 11: the
fallback branch of `get_response` appends without truncating, so the
"length ≤ 10 after every completed call" invariant fails. -/
theorem C6_counterexample :
    ¬ (((List.replicate 11 "x").foldl
        (fun ch q => (j_get_response (fun _ _ => (0 : ℚ)) (fun _ => (0 : Nat)) []
          (fun _ => "") q ch (2/5)).2)
        ⟨[], []⟩ : ContextHistory).history.length ≤ 10) := by decide

/-- C6 amended: the "append then truncate to the last 10" discipline holds
on the MATCHED branch only: for a non-greeting input that matches, the new
history is the old history plus the new turn, truncated to the most recent
10 entries (oldest dropped first), so its length is `min (old + 1) 10`.
(The fallback branch appends without truncating — see the
counterexample.) -/
theorem C6_history_truncation {E : Type} (cos : E → E → ℚ) (encode : String → E)
    (db : List (SimpleRecord × RecEmb E)) (gen : String → String)
    (q : String) (ch : ContextHistory) (thr : ℚ)
    (hg : j_greetings.any (fun g => decide (pylower q = g)) = false)
    (hm : ((j_find_best_context cos encode db (pylower q) thr).getD "") ≠ "") :
    (j_get_response cos encode db gen q ch thr).2.history =
      (ch.history ++ [Turn.mk (pylower q)
          (j_get_response cos encode db gen q ch thr).1]).drop
        ((ch.history.length + 1) - 10) ∧
    (j_get_response cos encode db gen q ch thr).2.history.length =
      min (ch.history.length + 1) 10 := by
  simp only [j_get_response, hg, Bool.false_eq_true, if_false, ne_eq, hm,
    not_false_eq_true, if_true, List.dropLast_concat, truncate_eq]
  constructor
  · simp [List.length_append]
  · simp [List.length_drop, List.length_append]
    omega

unseal Rat.add Rat.mul Rat.inv in
/-- Witness for C6 on a one-record base whose record always matches. -/
theorem C6_witness :
    j_greetings.any (fun g => decide (pylower "hello" = g)) = false ∧
    ((j_find_best_context (fun _ _ => (1 : ℚ)) (fun _ => (0 : Nat)) c6db
        (pylower "hello") (2/5)).getD "") ≠ "" ∧
    ((j_get_response (fun _ _ => (1 : ℚ)) (fun _ => (0 : Nat)) c6db (fun _ => "g")
        "hello" ⟨[], []⟩ (2/5)).2.history =
      (([] : List Turn) ++ [Turn.mk (pylower "hello")
        (j_get_response (fun _ _ => (1 : ℚ)) (fun _ => (0 : Nat)) c6db (fun _ => "g")
          "hello" ⟨[], []⟩ (2/5)).1]).drop ((([] : List Turn).length + 1) - 10) ∧
     (j_get_response (fun _ _ => (1 : ℚ)) (fun _ => (0 : Nat)) c6db (fun _ => "g")
        "hello" ⟨[], []⟩ (2/5)).2.history.length = min (([] : List Turn).length + 1) 10) := by
  refine ⟨by decide, ?_, ?_⟩
  · decide
  · exact C6_history_truncation (fun _ _ => (1 : ℚ)) (fun _ => (0 : Nat)) c6db
      (fun _ => "g") "hello" ⟨[], []⟩ (2/5) (by decide) (by decide)

unseal Rat.add Rat.mul Rat.inv in
/-- C7: the spelling-corrected retry path DOES fail.  On input
"wat is anginaa" with an empty direct match, a normalizer correcting it to
"what is angina" and a record with trigger "angina", `get_response` passes
the whole matched-record list to `match_columns`, whose attribute lookup
raises; the orchestrator surfaces the uncaught exception instead of a
response, contradicting the claim that the retry path never fails. -/
theorem C7_retry_path_crashes :
    get_response (fun _ _ => (0 : ℚ)) (fun _ => (0 : Nat)) c7db [] [] c7nm
      "wat is anginaa" (3/10) =
      .error "AttributeError: 'list' object has no attribute 'get'" := by rfl

/-- C8: the domain gate returns true iff some cosine score between the
query embedding and a domain-keyword embedding reaches the threshold, and
raising the threshold never grows the relevant set (every query relevant
at `t2 ≥ t1` is relevant at `t1`). -/
theorem C8_domain_gate_monotone {E : Type} (cos : E → E → ℚ) (encode : String → E)
    (domain_embeddings : List E) (q : String) (t1 t2 : ℚ) (h : t1 ≤ t2) :
    (is_domain_relevant cos encode domain_embeddings q t2 = true →
      is_domain_relevant cos encode domain_embeddings q t1 = true) ∧
    (∀ t : ℚ, is_domain_relevant cos encode domain_embeddings q t = true ↔
      ∃ d ∈ domain_embeddings, cos (encode (pylower q)) d ≥ t) := by
  have hiff : ∀ t : ℚ, is_domain_relevant cos encode domain_embeddings q t = true ↔
      ∃ d ∈ domain_embeddings, cos (encode (pylower q)) d ≥ t := by
    intro t
    unfold is_domain_relevant
    rw [List.any_eq_true]
    constructor
    · rintro ⟨s, hs, hds⟩
      obtain ⟨d, hd, rfl⟩ := List.mem_map.mp hs
      exact ⟨d, hd, of_decide_eq_true hds⟩
    · rintro ⟨d, hd, hge⟩
      exact ⟨cos (encode (pylower q)) d, List.mem_map_of_mem _ hd, decide_eq_true hge⟩
  refine ⟨?_, hiff⟩
  intro ht2
  rcases (hiff t2).mp ht2 with ⟨d, hd, hge⟩
  exact (hiff t1).mpr ⟨d, hd, le_trans h hge⟩

unseal Rat.add Rat.mul Rat.inv in
/-- Witness for C8 at a singleton set of domain embeddings. -/
theorem C8_witness :
    ((1 : ℚ)/2 ≤ 3/4) ∧
    ((is_domain_relevant (fun _ _ => (1 : ℚ)) (fun _ => (0 : Nat)) [5] "heart" (3/4) = true →
      is_domain_relevant (fun _ _ => (1 : ℚ)) (fun _ => (0 : Nat)) [5] "heart" (1/2) = true) ∧
     (∀ t : ℚ, is_domain_relevant (fun _ _ => (1 : ℚ)) (fun _ => (0 : Nat)) [5] "heart" t = true ↔
        ∃ d ∈ ([5] : List Nat), (1 : ℚ) ≥ t)) :=
  ⟨by decide,
    C8_domain_gate_monotone (fun _ _ => (1 : ℚ)) (fun _ => (0 : Nat)) [5] "heart"
      (1/2) (3/4) (by decide)⟩

unseal Rat.add Rat.mul Rat.inv in
/-- C9: in `Logic1_OnlyCSV.py` the trigger component is NOT the similarity
against the trigger embedding: at a concrete embedding assignment where
the query-trigger similarity is 9/10 and the synonym/keyword similarities
are 1/10, Logic1's per-record scores give a trigger component of 1/10
(the synonym maximum), while the `maxFromEachColumn.py` /
`response_generation.py` computation gives the claimed 9/10. -/
theorem C9_trigger_component :
    l1_componentScores c9cos 0 c9emb = (1/10, 1/10, 1/10) ∧
    c9cos 0 c9emb.trigger_embedding = 9/10 ∧
    mfc_componentScores c9cos 0 c9emb = (9/10, 1/10, 1/10) := by decide

/-- C10: `correct_spelling` is the identity on inputs with at most one
whitespace-separated word; consequently, for a single-word query whose
direct match is empty the spelling-corrected retry is skipped and
`get_response` goes straight to the domain gate. -/
theorem C10_single_word_identity {E : Type} (cos : E → E → ℚ) (encode : String → E)
    (db : List (SimpleRecord × RecEmb E)) (domain_embeddings : List E)
    (corr : String → Option String) (user_input : String) (threshold : ℚ)
    (h1 : (pysplit user_input).length ≤ 1)
    (h2 : (l1_find_best_context cos encode db user_input threshold).getD "" = "") :
    correct_spelling corr user_input = user_input ∧
    l1_get_response cos encode db domain_embeddings corr user_input threshold =
      (if is_domain_relevant cos encode domain_embeddings user_input (4/10) then
        placeholder_response
      else fallback_response) := by
  have hcs : correct_spelling corr user_input = user_input := by
    unfold correct_spelling
    rw [if_neg (Nat.not_lt.mpr h1)]
  refine ⟨hcs, ?_⟩
  simp [l1_get_response, h2, hcs]

/-- Witness for C10 at the single-word query "angina" on an empty base. -/
theorem C10_witness :
    (pysplit "angina").length ≤ 1 ∧
    (l1_find_best_context (fun _ _ => (0 : ℚ)) (fun _ => (0 : Nat))
      ([] : List (SimpleRecord × RecEmb Nat)) "angina" (7/10)).getD "" = "" ∧
    (correct_spelling (fun _ => none) "angina" = "angina" ∧
     l1_get_response (fun _ _ => (0 : ℚ)) (fun _ => (0 : Nat)) [] [] (fun _ => none)
        "angina" (7/10) =
       (if is_domain_relevant (fun _ _ => (0 : ℚ)) (fun _ => (0 : Nat)) ([] : List Nat)
          "angina" (4/10) then placeholder_response
        else fallback_response)) :=
  ⟨by decide, by decide,
    C10_single_word_identity (fun _ _ => (0 : ℚ)) (fun _ => (0 : Nat)) [] []
      (fun _ => none) "angina" (7/10) (by decide) (by decide)⟩

end DemoMirror
